import Mathlib

/-!
Shallow embedding of the content-moderation benchmark core
(`src/benchmark/metrics.py`, `src/benchmark/runner.py`,
`src/providers/base.py`) and proofs about it.

Python floats are modelled as rationals (`ℚ`), Python ints as `ℕ`,
`Optional[str]` as `Option String`, dictionaries keyed by strings as
functions `String → _` (a key never touched maps to the zero value /
empty list, which matches the dictionaries here: every stored value is
produced by at least one increment / append).  The opaque raw vendor
payload (`Optional[Dict[str, Any]]`, used only for diagnostics) is
modelled by the two projections of it the embedded code reads: its
serialized form and its `riskDescription` field.
-/

/-- The `RiskLevel` enum from `providers/base.py`. -/
inductive RiskLevel where
  | PASS
  | REVIEW
  | REJECT
deriving DecidableEq, Repr

/-- The `RiskLevel.value` projection (the string payload of the Python enum). -/
def RiskLevel.value : RiskLevel → String
  | .PASS => "PASS"
  | .REVIEW => "REVIEW"
  | .REJECT => "REJECT"

/-- The `ContentType` enum from `providers/base.py`. -/
inductive ContentType where
  | TEXT
  | IMAGE
deriving DecidableEq, Repr

/-- The `ContentType.value` projection. -/
def ContentType.value : ContentType → String
  | .TEXT => "text"
  | .IMAGE => "image"

/-- The opaque raw vendor payload, reduced to the two projections the
embedded code reads from it (`json.dumps(raw_response)` and
`raw_response.get("riskDescription", "")`). -/
structure RawPayload where
  serialized : String := ""
  riskDescription : String := ""
deriving DecidableEq, Repr

/-- The `ModerationResult` dataclass from `providers/base.py`, with the same
field defaults. -/
structure ModerationResult where
  success : Bool := false
  error : Option String := none
  risk_level : RiskLevel := .PASS
  risk_label : String := "正常"
  risk_labels : List String := []
  confidence : ℚ := 0
  response_time : ℚ := 0
  raw_response : Option RawPayload := none
  provider : String := ""
  content_type : ContentType := .TEXT
deriving DecidableEq, Repr

/-- The `TestCase` record from `data/loader.py` (the fields the benchmark core reads). -/
structure TestCase where
  id : String := ""
  content : String := ""
  content_type : ContentType := .TEXT
  expected_risk : String := ""
  category : String := ""
deriving DecidableEq, Repr

/-- Case-insensitive lowering, `str.lower()` (ASCII letters; the labels used
here are either ASCII or Chinese, which `lower` leaves unchanged). -/
def pyLower (s : String) : String :=
  String.mk (s.data.map Char.toLower)

/-- Python `needle in hay` on strings: substring containment on the
character list. -/
def charsContain (needle : List Char) : List Char → Bool
  | [] => needle.isEmpty
  | c :: t => needle.isPrefixOf (c :: t) || charsContain needle t

/-- Python `needle in hay` for strings. -/
def strContains (hay needle : String) : Bool :=
  charsContain needle.data hay.data

/-- One entry of `MetricsCollector.results` (the `record` dict built in
`MetricsCollector.record`). -/
structure RecordEntry where
  success : Bool
  response_time : ℚ
  expected : String
  actual : String
  risk_level : String
  error : Option String
deriving DecidableEq, Repr

/-- Per-category statistics stored in `BenchmarkMetrics.category_metrics`. -/
structure CategoryStat where
  total : ℕ := 0
  success : ℕ := 0
  match_count : ℕ := 0
  match_rate : ℚ := 0
deriving DecidableEq, Repr

/-- The `BenchmarkMetrics` dataclass from `metrics.py`, with the same defaults. -/
structure BenchmarkMetrics where
  provider : String := ""
  content_type : String := ""
  total_requests : ℕ := 0
  success_count : ℕ := 0
  fail_count : ℕ := 0
  timeout_count : ℕ := 0
  response_times : List ℚ := []
  avg_response_time : ℚ := 0
  min_response_time : ℚ := 0
  max_response_time : ℚ := 0
  p50_response_time : ℚ := 0
  p95_response_time : ℚ := 0
  p99_response_time : ℚ := 0
  total_duration : ℚ := 0
  qps : ℚ := 0
  true_positive : ℕ := 0
  true_negative : ℕ := 0
  false_positive : ℕ := 0
  false_negative : ℕ := 0
  accuracy : ℚ := 0
  precision_score : ℚ := 0
  recall_score : ℚ := 0
  f1_score : ℚ := 0
  error_types : String → ℕ := fun _ => 0
  category_metrics : String → CategoryStat := fun _ => {}

/-- The `BenchmarkMetrics.success_rate` property. -/
def BenchmarkMetrics.success_rate (m : BenchmarkMetrics) : ℚ :=
  if m.total_requests = 0 then 0
  else ((m.success_count : ℚ) / (m.total_requests : ℚ)) * 100

/-- The `BenchmarkMetrics.timeout_rate` property. -/
def BenchmarkMetrics.timeout_rate (m : BenchmarkMetrics) : ℚ :=
  if m.total_requests = 0 then 0
  else ((m.timeout_count : ℚ) / (m.total_requests : ℚ)) * 100

/-- The mutable state of `MetricsCollector` (its `__init__` fields). -/
structure MetricsCollector where
  provider : String := ""
  content_type : String := ""
  response_times : List ℚ := []
  results : List RecordEntry := []
  success_count : ℕ := 0
  fail_count : ℕ := 0
  timeout_count : ℕ := 0
  true_positive : ℕ := 0
  true_negative : ℕ := 0
  false_positive : ℕ := 0
  false_negative : ℕ := 0
  error_types : String → ℕ := fun _ => 0
  category_results : String → List RecordEntry := fun _ => []
  start_time : Option ℚ := none
  end_time : Option ℚ := none

namespace MetricsCollector

/-- Translation of `MetricsCollector._categorize_error`. -/
def categorize_error : Option String → String
  | none => "Unknown"
  | some e =>
    if e = "" then "Unknown"
    else
      let el := pyLower e
      if strContains el "timeout" then "Timeout"
      else if strContains el "network" || strContains el "connection" then "Network Error"
      else if strContains el "http" then "HTTP Error"
      else if strContains el "api" then "API Error"
      else "Other"

/-- Python `result.error and "timeout" in result.error.lower()` (the timeout test in
`record`; an absent or empty error string is falsy). -/
def errorHasTimeout : Option String → Bool
  | none => false
  | some e => !(e = "") && strContains (pyLower e) "timeout"

/-- The `record` dict appended to `self.results` in `MetricsCollector.record`. -/
def mkEntry (result : ModerationResult) (expected_risk : String) : RecordEntry :=
  { success := result.success
    response_time := result.response_time
    expected := expected_risk
    actual := result.risk_label
    risk_level := result.risk_level.value
    error := result.error }

/-- Translation of `MetricsCollector.record`, statement by statement from
`metrics.py` lines 156–209.  Note that the confusion-matrix update is
outside the `if result.success` branch, exactly as in the source. -/
def record (s : MetricsCollector) (result : ModerationResult)
    (expected_risk : String) (category : String) : MetricsCollector :=
  let entry := mkEntry result expected_risk
  let s0 := { s with results := s.results ++ [entry] }
  let s1 :=
    if result.success then
      { s0 with success_count := s0.success_count + 1
                response_times := s0.response_times ++ [result.response_time] }
    else
      let sa := { s0 with fail_count := s0.fail_count + 1 }
      let sb :=
        if errorHasTimeout result.error then
          { sa with timeout_count := sa.timeout_count + 1 }
        else sa
      let et := categorize_error result.error
      { sb with error_types := fun k =>
          if k = et then sb.error_types k + 1 else sb.error_types k }
  let is_positive_expected := expected_risk ≠ "正常"
  let is_positive_actual := result.risk_label ≠ "正常"
  let s2 :=
    if is_positive_expected ∧ is_positive_actual then
      { s1 with true_positive := s1.true_positive + 1 }
    else if ¬is_positive_expected ∧ ¬is_positive_actual then
      { s1 with true_negative := s1.true_negative + 1 }
    else if ¬is_positive_expected ∧ is_positive_actual then
      { s1 with false_positive := s1.false_positive + 1 }
    else
      { s1 with false_negative := s1.false_negative + 1 }
  if category ≠ "" then
    { s2 with category_results := fun k =>
        if k = category then s2.category_results k ++ [entry]
        else s2.category_results k }
  else s2

/-- Translation of `MetricsCollector._is_match`. -/
def is_match (expected actual : String) : Bool :=
  if expected = actual then true
  else if expected = "正常" ∧ actual = "正常" then true
  else if expected ≠ "正常" ∧ actual ≠ "正常" then
    strContains actual expected || strContains expected actual
  else false

/-- Translation of `MetricsCollector._percentile` (`int(n * percentile / 100)` truncates,
which on these nonnegative values is floor division). -/
def percentile (sorted_data : List ℚ) (p : ℕ) : ℚ :=
  if sorted_data.isEmpty then 0
  else
    let n := sorted_data.length
    let index := min (n * p / 100) (n - 1)
    sorted_data.getD index 0

/-- The per-category statistics `calculate` builds for one category bucket. -/
def categoryStatOf (rs : List RecordEntry) : CategoryStat :=
  let category_success := rs.countP (fun r => r.success)
  let category_match := rs.countP (fun r => r.success && is_match r.expected r.actual)
  { total := rs.length
    success := category_success
    match_count := category_match
    match_rate := if rs ≠ [] then ((category_match : ℚ) / (rs.length : ℚ)) * 100 else 0 }

/-- Translation of `MetricsCollector.calculate`, from `metrics.py` lines 228–313.
`sorted()` is modelled by insertion sort on `ℚ`; the `category_metrics`
dictionary is modelled as the function sending each category to the
statistics of its bucket (untouched categories have the empty bucket). -/
def calculate (s : MetricsCollector) : BenchmarkMetrics :=
  let metrics : BenchmarkMetrics :=
    { provider := s.provider
      content_type := s.content_type
      total_requests := s.results.length
      success_count := s.success_count
      fail_count := s.fail_count
      timeout_count := s.timeout_count
      true_positive := s.true_positive
      true_negative := s.true_negative
      false_positive := s.false_positive
      false_negative := s.false_negative
      error_types := s.error_types }
  let m1 : BenchmarkMetrics :=
    if s.response_times ≠ [] then
      let sorted_times := s.response_times.insertionSort (· ≤ ·)
      let n := sorted_times.length
      { metrics with
          response_times := sorted_times
          avg_response_time := sorted_times.sum / (n : ℚ)
          min_response_time := sorted_times.headD 0
          max_response_time := sorted_times.getLastD 0
          p50_response_time := percentile sorted_times 50
          p95_response_time := percentile sorted_times 95
          p99_response_time := percentile sorted_times 99 }
    else metrics
  let m2 : BenchmarkMetrics :=
    match s.start_time, s.end_time with
    | some st, some et =>
      let m := { m1 with total_duration := et - st }
      if m.total_duration > 0 then
        { m with qps := (m.success_count : ℚ) / m.total_duration }
      else m
    | _, _ => m1
  let total_predictions :=
    s.true_positive + s.true_negative + s.false_positive + s.false_negative
  let m3 : BenchmarkMetrics :=
    if total_predictions > 0 then
      { m2 with accuracy :=
          (((s.true_positive + s.true_negative : ℕ) : ℚ) / (total_predictions : ℚ)) * 100 }
    else m2
  let m4 : BenchmarkMetrics :=
    if s.true_positive + s.false_positive > 0 then
      { m3 with precision_score :=
          ((s.true_positive : ℚ) / ((s.true_positive + s.false_positive : ℕ) : ℚ)) * 100 }
    else m3
  let m5 : BenchmarkMetrics :=
    if s.true_positive + s.false_negative > 0 then
      { m4 with recall_score :=
          ((s.true_positive : ℚ) / ((s.true_positive + s.false_negative : ℕ) : ℚ)) * 100 }
    else m4
  let m6 : BenchmarkMetrics :=
    if m5.precision_score + m5.recall_score > 0 then
      { m5 with f1_score :=
          2 * m5.precision_score * m5.recall_score /
            (m5.precision_score + m5.recall_score) }
    else m5
  { m6 with category_metrics := fun c => categoryStatOf (s.category_results c) }

end MetricsCollector

/-- The `MismatchRecord` dataclass from `runner.py`. -/
structure MismatchRecord where
  case_id : String
  content : String
  content_type : String
  expected_risk : String
  actual_risk_level : String
  actual_risk_label : String
  risk_description : String
  response_time_ms : ℚ
  raw_response : String
deriving DecidableEq, Repr

namespace BenchmarkRunner

/-- Translation of `BenchmarkRunner._check_mismatch`, from `runner.py`
lines 300–347.  The Python enum `mod_result.risk_level` is always truthy,
so `risk_level.value if risk_level else "N/A"` is its `.value`; the
best-effort JSON serialization of the opaque raw payload is its
`serialized` projection. -/
def check_mismatch (test_case : TestCase) (mod_result : ModerationResult)
    (content_type : ContentType) : Option MismatchRecord :=
  if !mod_result.success then none
  else
    let expected_is_risk := test_case.expected_risk ≠ "正常"
    let actual_is_risk := mod_result.risk_level ≠ RiskLevel.PASS
    if expected_is_risk ↔ actual_is_risk then none
    else
      some
        { case_id := test_case.id
          content :=
            if test_case.content.length > 500 then test_case.content.take 500
            else test_case.content
          content_type := content_type.value
          expected_risk := test_case.expected_risk
          actual_risk_level := mod_result.risk_level.value
          actual_risk_label :=
            if mod_result.risk_label = "" then "N/A" else mod_result.risk_label
          risk_description :=
            match mod_result.raw_response with
            | some p => p.riskDescription
            | none => ""
          response_time_ms :=
            if mod_result.response_time ≠ 0 then mod_result.response_time * 1000
            else 0
          raw_response :=
            match mod_result.raw_response with
            | some p => p.serialized
            | none => "" }

/-- The failed outcome the driver builds in the `except` branch of
`_run_benchmark` (`runner.py` lines 275–280): all other
`ModerationResult` fields keep their dataclass defaults. -/
def errorResult (e : String) (provider : String) (content_type : ContentType) :
    ModerationResult :=
  { success := false
    error := some e
    provider := provider
    content_type := content_type }

/-- One adapter call is modelled as either a returned `ModerationResult` or a
raised exception carrying its text. -/
def AdapterCall := TestCase → Except String ModerationResult

/-- Processing of one completed future in `_run_benchmark` (lines 250–285):
on a returned result, record it and check for a mismatch; on a raised
exception, record the converted failed outcome and continue. -/
def runStep (adapter : AdapterCall) (provider : String) (content_type : ContentType)
    (acc : MetricsCollector × List MismatchRecord) (test_case : TestCase) :
    MetricsCollector × List MismatchRecord :=
  match adapter test_case with
  | .ok mod_result =>
    let c := acc.1.record mod_result test_case.expected_risk test_case.category
    let ms :=
      match check_mismatch test_case mod_result content_type with
      | some mm => acc.2 ++ [mm]
      | none => acc.2
    (c, ms)
  | .error e =>
    (acc.1.record (errorResult e provider content_type)
        test_case.expected_risk test_case.category,
      acc.2)

/-- The collector state and mismatch list after `_run_benchmark` drains all
futures.  `completion_order` is the order in which futures complete (a
permutation of the submitted cases); `t0`/`t1` are the wall-clock readings
taken by `collector.start()` / `collector.stop()`. -/
def runBenchmarkState (adapter : AdapterCall) (provider : String)
    (content_type : ContentType) (completion_order : List TestCase)
    (t0 t1 : ℚ) : MetricsCollector × List MismatchRecord :=
  let c0 : MetricsCollector :=
    { provider := provider, content_type := content_type.value,
      start_time := some t0 }
  let r := completion_order.foldl (runStep adapter provider content_type) (c0, [])
  ({ r.1 with end_time := some t1 }, r.2)

/-- Translation of `BenchmarkRunner._run_benchmark`: final metrics and mismatch list. -/
def run_benchmark (adapter : AdapterCall) (provider : String)
    (content_type : ContentType) (completion_order : List TestCase)
    (t0 t1 : ℚ) : BenchmarkMetrics × List MismatchRecord :=
  let r := runBenchmarkState adapter provider content_type completion_order t0 t1
  (r.1.calculate, r.2)

end BenchmarkRunner

/-- One input to `MetricsCollector.record`: the outcome, the expected risk
label, and the category. -/
abbrev RecordInput := ModerationResult × String × String

/-- A fresh `MetricsCollector` (its `__init__` state). -/
def freshCollector (provider content_type : String) : MetricsCollector :=
  { provider := provider, content_type := content_type }

/-- Feeding a sequence of `record` calls to a collector state. -/
def recordAll (s : MetricsCollector) (l : List RecordInput) : MetricsCollector :=
  l.foldl (fun a x => a.record x.1 x.2.1 x.2.2) s

namespace MetricsCollector

theorem ite_add_one (p : Prop) [Decidable p] (n : ℕ) :
    (if p then n + 1 else n) = n + (if p then 1 else 0) := by
  split <;> simp

theorem ite_append_single {α : Type} (p : Prop) [Decidable p] (l : List α) (x : α) :
    (if p then l ++ [x] else l) = l ++ (if p then [x] else []) := by
  split <;> simp

theorem record_results (s : MetricsCollector) (r : ModerationResult) (e c : String) :
    (record s r e c).results = s.results ++ [mkEntry r e] := by
  simp [record, apply_ite results]

theorem record_provider (s : MetricsCollector) (r : ModerationResult) (e c : String) :
    (record s r e c).provider = s.provider := by
  simp [record, apply_ite provider]

theorem record_content_type (s : MetricsCollector) (r : ModerationResult) (e c : String) :
    (record s r e c).content_type = s.content_type := by
  simp [record, apply_ite content_type]

theorem record_start_time (s : MetricsCollector) (r : ModerationResult) (e c : String) :
    (record s r e c).start_time = s.start_time := by
  simp [record, apply_ite start_time]

theorem record_end_time (s : MetricsCollector) (r : ModerationResult) (e c : String) :
    (record s r e c).end_time = s.end_time := by
  simp [record, apply_ite end_time]

theorem record_success_count (s : MetricsCollector) (r : ModerationResult) (e c : String) :
    (record s r e c).success_count = s.success_count + (if r.success then 1 else 0) := by
  by_cases hs : r.success <;> simp [record, apply_ite success_count, hs]

theorem record_fail_count (s : MetricsCollector) (r : ModerationResult) (e c : String) :
    (record s r e c).fail_count = s.fail_count + (if r.success then 0 else 1) := by
  by_cases hs : r.success <;> simp [record, apply_ite fail_count, hs]

theorem record_timeout_count (s : MetricsCollector) (r : ModerationResult) (e c : String) :
    (record s r e c).timeout_count =
      s.timeout_count +
        (if ¬r.success ∧ errorHasTimeout r.error then 1 else 0) := by
  by_cases hs : r.success <;> by_cases ht : errorHasTimeout r.error <;>
    simp [record, apply_ite timeout_count, hs, ht]

theorem record_response_times (s : MetricsCollector) (r : ModerationResult) (e c : String) :
    (record s r e c).response_times =
      s.response_times ++ (if r.success then [r.response_time] else []) := by
  by_cases hs : r.success <;> simp [record, apply_ite response_times, hs]

theorem record_error_types (s : MetricsCollector) (r : ModerationResult) (e c : String)
    (k : String) :
    (record s r e c).error_types k =
      s.error_types k +
        (if ¬r.success ∧ k = categorize_error r.error then 1 else 0) := by
  by_cases hs : r.success <;> by_cases hk : k = categorize_error r.error <;>
    simp [record, apply_ite error_types, ite_apply, hs, hk]

theorem record_true_positive (s : MetricsCollector) (r : ModerationResult) (e c : String) :
    (record s r e c).true_positive =
      s.true_positive + (if e ≠ "正常" ∧ r.risk_label ≠ "正常" then 1 else 0) := by
  by_cases he : e = "正常" <;> by_cases ha : r.risk_label = "正常" <;>
    simp [record, apply_ite true_positive, he, ha]

theorem record_true_negative (s : MetricsCollector) (r : ModerationResult) (e c : String) :
    (record s r e c).true_negative =
      s.true_negative + (if e = "正常" ∧ r.risk_label = "正常" then 1 else 0) := by
  by_cases he : e = "正常" <;> by_cases ha : r.risk_label = "正常" <;>
    simp [record, apply_ite true_negative, he, ha]

theorem record_false_positive (s : MetricsCollector) (r : ModerationResult) (e c : String) :
    (record s r e c).false_positive =
      s.false_positive + (if e = "正常" ∧ r.risk_label ≠ "正常" then 1 else 0) := by
  by_cases he : e = "正常" <;> by_cases ha : r.risk_label = "正常" <;>
    simp [record, apply_ite false_positive, he, ha]

theorem record_false_negative (s : MetricsCollector) (r : ModerationResult) (e c : String) :
    (record s r e c).false_negative =
      s.false_negative + (if e ≠ "正常" ∧ r.risk_label = "正常" then 1 else 0) := by
  by_cases he : e = "正常" <;> by_cases ha : r.risk_label = "正常" <;>
    simp [record, apply_ite false_negative, he, ha]

theorem record_category_results (s : MetricsCollector) (r : ModerationResult) (e c : String)
    (k : String) :
    (record s r e c).category_results k =
      s.category_results k ++
        (if c ≠ "" ∧ k = c then [mkEntry r e] else []) := by
  by_cases hc : c = "" <;> by_cases hk : k = c <;>
    simp [record, apply_ite category_results, ite_apply, hc, hk]

/-- The step function folded by `recordAll`. -/
theorem recordAll_nil (s : MetricsCollector) : recordAll s [] = s := rfl

theorem recordAll_cons (s : MetricsCollector) (x : RecordInput) (l : List RecordInput) :
    recordAll s (x :: l) = recordAll (record s x.1 x.2.1 x.2.2) l := rfl

theorem recordAll_success_count (l : List RecordInput) (s : MetricsCollector) :
    (recordAll s l).success_count =
      s.success_count + l.countP (fun x => x.1.success) := by
  induction l generalizing s with
  | nil => simp [recordAll_nil]
  | cons x xs ih =>
    rw [recordAll_cons, ih, record_success_count, List.countP_cons]
    by_cases h : x.1.success <;> simp [h] <;> omega

theorem recordAll_fail_count (l : List RecordInput) (s : MetricsCollector) :
    (recordAll s l).fail_count =
      s.fail_count + l.countP (fun x => !x.1.success) := by
  induction l generalizing s with
  | nil => simp [recordAll_nil]
  | cons x xs ih =>
    rw [recordAll_cons, ih, record_fail_count, List.countP_cons]
    by_cases h : x.1.success <;> simp [h] <;> omega

theorem recordAll_timeout_count (l : List RecordInput) (s : MetricsCollector) :
    (recordAll s l).timeout_count =
      s.timeout_count +
        l.countP (fun x => !x.1.success && errorHasTimeout x.1.error) := by
  induction l generalizing s with
  | nil => simp [recordAll_nil]
  | cons x xs ih =>
    rw [recordAll_cons, ih, record_timeout_count, List.countP_cons]
    by_cases h : x.1.success <;> by_cases ht : errorHasTimeout x.1.error <;>
      simp [h, ht] <;> omega

theorem recordAll_results (l : List RecordInput) (s : MetricsCollector) :
    (recordAll s l).results =
      s.results ++ l.map (fun x => mkEntry x.1 x.2.1) := by
  induction l generalizing s with
  | nil => simp [recordAll_nil]
  | cons x xs ih =>
    rw [recordAll_cons, ih, record_results]
    simp

theorem recordAll_response_times (l : List RecordInput) (s : MetricsCollector) :
    (recordAll s l).response_times =
      s.response_times ++
        l.filterMap (fun x =>
          if x.1.success then some x.1.response_time else none) := by
  induction l generalizing s with
  | nil => simp [recordAll_nil]
  | cons x xs ih =>
    rw [recordAll_cons, ih, record_response_times, List.filterMap_cons]
    by_cases h : x.1.success <;> simp [h]

theorem recordAll_true_positive (l : List RecordInput) (s : MetricsCollector) :
    (recordAll s l).true_positive =
      s.true_positive +
        l.countP (fun x =>
          decide (x.2.1 ≠ "正常" ∧ x.1.risk_label ≠ "正常")) := by
  induction l generalizing s with
  | nil => simp [recordAll_nil]
  | cons x xs ih =>
    rw [recordAll_cons, ih, record_true_positive, List.countP_cons]
    by_cases h : x.2.1 ≠ "正常" ∧ x.1.risk_label ≠ "正常" <;> simp [h] <;> omega

theorem recordAll_true_negative (l : List RecordInput) (s : MetricsCollector) :
    (recordAll s l).true_negative =
      s.true_negative +
        l.countP (fun x =>
          decide (x.2.1 = "正常" ∧ x.1.risk_label = "正常")) := by
  induction l generalizing s with
  | nil => simp [recordAll_nil]
  | cons x xs ih =>
    rw [recordAll_cons, ih, record_true_negative, List.countP_cons]
    by_cases h : x.2.1 = "正常" ∧ x.1.risk_label = "正常" <;> simp [h] <;> omega

theorem recordAll_false_positive (l : List RecordInput) (s : MetricsCollector) :
    (recordAll s l).false_positive =
      s.false_positive +
        l.countP (fun x =>
          decide (x.2.1 = "正常" ∧ x.1.risk_label ≠ "正常")) := by
  induction l generalizing s with
  | nil => simp [recordAll_nil]
  | cons x xs ih =>
    rw [recordAll_cons, ih, record_false_positive, List.countP_cons]
    by_cases h : x.2.1 = "正常" ∧ x.1.risk_label ≠ "正常" <;> simp [h] <;> omega

theorem recordAll_false_negative (l : List RecordInput) (s : MetricsCollector) :
    (recordAll s l).false_negative =
      s.false_negative +
        l.countP (fun x =>
          decide (x.2.1 ≠ "正常" ∧ x.1.risk_label = "正常")) := by
  induction l generalizing s with
  | nil => simp [recordAll_nil]
  | cons x xs ih =>
    rw [recordAll_cons, ih, record_false_negative, List.countP_cons]
    by_cases h : x.2.1 ≠ "正常" ∧ x.1.risk_label = "正常" <;> simp [h] <;> omega

theorem recordAll_error_types (l : List RecordInput) (s : MetricsCollector) (k : String) :
    (recordAll s l).error_types k =
      s.error_types k +
        l.countP (fun x =>
          !x.1.success && decide (k = categorize_error x.1.error)) := by
  induction l generalizing s with
  | nil => simp [recordAll_nil]
  | cons x xs ih =>
    rw [recordAll_cons, ih, record_error_types, List.countP_cons]
    by_cases h : x.1.success <;> by_cases hk : k = categorize_error x.1.error <;>
      simp [h, hk] <;> omega

theorem recordAll_category_results (l : List RecordInput) (s : MetricsCollector)
    (k : String) :
    (recordAll s l).category_results k =
      s.category_results k ++
        l.filterMap (fun x =>
          if x.2.2 ≠ "" ∧ k = x.2.2 then some (mkEntry x.1 x.2.1) else none) := by
  induction l generalizing s with
  | nil => simp [recordAll_nil]
  | cons x xs ih =>
    rw [recordAll_cons, ih, record_category_results, List.filterMap_cons]
    by_cases h : x.2.2 ≠ "" ∧ k = x.2.2 <;> simp [h]

theorem recordAll_start_time (l : List RecordInput) (s : MetricsCollector) :
    (recordAll s l).start_time = s.start_time := by
  induction l generalizing s with
  | nil => simp [recordAll_nil]
  | cons x xs ih => rw [recordAll_cons, ih, record_start_time]

theorem recordAll_end_time (l : List RecordInput) (s : MetricsCollector) :
    (recordAll s l).end_time = s.end_time := by
  induction l generalizing s with
  | nil => simp [recordAll_nil]
  | cons x xs ih => rw [recordAll_cons, ih, record_end_time]

theorem recordAll_provider (l : List RecordInput) (s : MetricsCollector) :
    (recordAll s l).provider = s.provider := by
  induction l generalizing s with
  | nil => simp [recordAll_nil]
  | cons x xs ih => rw [recordAll_cons, ih, record_provider]

theorem recordAll_content_type (l : List RecordInput) (s : MetricsCollector) :
    (recordAll s l).content_type = s.content_type := by
  induction l generalizing s with
  | nil => simp [recordAll_nil]
  | cons x xs ih => rw [recordAll_cons, ih, record_content_type]

theorem calculate_success_count (s : MetricsCollector) :
    (calculate s).success_count = s.success_count := by
  cases hst : s.start_time <;> cases het : s.end_time <;>
    simp [calculate, hst, het, apply_ite BenchmarkMetrics.success_count]

theorem calculate_fail_count (s : MetricsCollector) :
    (calculate s).fail_count = s.fail_count := by
  cases hst : s.start_time <;> cases het : s.end_time <;>
    simp [calculate, hst, het, apply_ite BenchmarkMetrics.fail_count]

theorem calculate_timeout_count (s : MetricsCollector) :
    (calculate s).timeout_count = s.timeout_count := by
  cases hst : s.start_time <;> cases het : s.end_time <;>
    simp [calculate, hst, het, apply_ite BenchmarkMetrics.timeout_count]

theorem calculate_total_requests (s : MetricsCollector) :
    (calculate s).total_requests = s.results.length := by
  cases hst : s.start_time <;> cases het : s.end_time <;>
    simp [calculate, hst, het, apply_ite BenchmarkMetrics.total_requests]

theorem calculate_true_positive (s : MetricsCollector) :
    (calculate s).true_positive = s.true_positive := by
  cases hst : s.start_time <;> cases het : s.end_time <;>
    simp [calculate, hst, het, apply_ite BenchmarkMetrics.true_positive]

theorem calculate_true_negative (s : MetricsCollector) :
    (calculate s).true_negative = s.true_negative := by
  cases hst : s.start_time <;> cases het : s.end_time <;>
    simp [calculate, hst, het, apply_ite BenchmarkMetrics.true_negative]

theorem calculate_false_positive (s : MetricsCollector) :
    (calculate s).false_positive = s.false_positive := by
  cases hst : s.start_time <;> cases het : s.end_time <;>
    simp [calculate, hst, het, apply_ite BenchmarkMetrics.false_positive]

theorem calculate_false_negative (s : MetricsCollector) :
    (calculate s).false_negative = s.false_negative := by
  cases hst : s.start_time <;> cases het : s.end_time <;>
    simp [calculate, hst, het, apply_ite BenchmarkMetrics.false_negative]

theorem calculate_error_types (s : MetricsCollector) :
    (calculate s).error_types = s.error_types := by
  cases hst : s.start_time <;> cases het : s.end_time <;>
    simp [calculate, hst, het, apply_ite BenchmarkMetrics.error_types]

theorem calculate_category_metrics (s : MetricsCollector) :
    (calculate s).category_metrics = fun c => categoryStatOf (s.category_results c) := by
  cases hst : s.start_time <;> cases het : s.end_time <;>
    simp [calculate, hst, het]

theorem calculate_accuracy (s : MetricsCollector) :
    (calculate s).accuracy =
      if s.true_positive + s.true_negative + s.false_positive + s.false_negative > 0 then
        (((s.true_positive + s.true_negative : ℕ) : ℚ) /
            ((s.true_positive + s.true_negative + s.false_positive + s.false_negative : ℕ) : ℚ)) * 100
      else 0 := by
  cases hst : s.start_time <;> cases het : s.end_time <;>
    by_cases h : s.true_positive + s.true_negative + s.false_positive + s.false_negative > 0 <;>
      simp [calculate, hst, het, h, apply_ite BenchmarkMetrics.accuracy]

theorem calculate_precision_score (s : MetricsCollector) :
    (calculate s).precision_score =
      if s.true_positive + s.false_positive > 0 then
        ((s.true_positive : ℚ) / ((s.true_positive + s.false_positive : ℕ) : ℚ)) * 100
      else 0 := by
  cases hst : s.start_time <;> cases het : s.end_time <;>
    by_cases h : s.true_positive + s.false_positive > 0 <;>
      simp [calculate, hst, het, h, apply_ite BenchmarkMetrics.precision_score]

theorem calculate_recall_score (s : MetricsCollector) :
    (calculate s).recall_score =
      if s.true_positive + s.false_negative > 0 then
        ((s.true_positive : ℚ) / ((s.true_positive + s.false_negative : ℕ) : ℚ)) * 100
      else 0 := by
  cases hst : s.start_time <;> cases het : s.end_time <;>
    by_cases h : s.true_positive + s.false_negative > 0 <;>
      simp [calculate, hst, het, h, apply_ite BenchmarkMetrics.recall_score]

theorem calculate_f1_score (s : MetricsCollector) :
    (calculate s).f1_score =
      if (calculate s).precision_score + (calculate s).recall_score > 0 then
        2 * (calculate s).precision_score * (calculate s).recall_score /
          ((calculate s).precision_score + (calculate s).recall_score)
      else 0 := by
  cases hst : s.start_time <;> cases het : s.end_time <;>
    simp [calculate, hst, het, apply_ite BenchmarkMetrics.f1_score,
      apply_ite BenchmarkMetrics.precision_score, apply_ite BenchmarkMetrics.recall_score]

theorem calculate_p50 (s : MetricsCollector) :
    (calculate s).p50_response_time =
      if s.response_times ≠ [] then
        percentile (s.response_times.insertionSort (fun a b => a ≤ b)) 50
      else 0 := by
  cases hst : s.start_time <;> cases het : s.end_time <;>
    by_cases h : s.response_times = [] <;>
      simp [calculate, hst, het, h, apply_ite BenchmarkMetrics.p50_response_time]

theorem calculate_p95 (s : MetricsCollector) :
    (calculate s).p95_response_time =
      if s.response_times ≠ [] then
        percentile (s.response_times.insertionSort (fun a b => a ≤ b)) 95
      else 0 := by
  cases hst : s.start_time <;> cases het : s.end_time <;>
    by_cases h : s.response_times = [] <;>
      simp [calculate, hst, het, h, apply_ite BenchmarkMetrics.p95_response_time]

theorem calculate_p99 (s : MetricsCollector) :
    (calculate s).p99_response_time =
      if s.response_times ≠ [] then
        percentile (s.response_times.insertionSort (fun a b => a ≤ b)) 99
      else 0 := by
  cases hst : s.start_time <;> cases het : s.end_time <;>
    by_cases h : s.response_times = [] <;>
      simp [calculate, hst, het, h, apply_ite BenchmarkMetrics.p99_response_time]

end MetricsCollector

namespace MetricsCollector

theorem ratio_pct_bounds (a b : ℕ) (h : b ≠ 0) (hab : a ≤ b) :
    0 ≤ ((a : ℚ) / (b : ℚ)) * 100 ∧ ((a : ℚ) / (b : ℚ)) * 100 ≤ 100 := by
  have hb : (0 : ℚ) < (b : ℚ) := by exact_mod_cast Nat.pos_of_ne_zero h
  constructor
  · positivity
  · have h1 : (a : ℚ) / (b : ℚ) ≤ 1 := (div_le_one hb).mpr (by exact_mod_cast hab)
    nlinarith

end MetricsCollector

/-- Claim C10: `BenchmarkMetrics.success_rate` and `timeout_rate` return `0`
when `total_requests = 0` and otherwise `(count / total_requests) * 100`, so
neither property divides by zero. -/
theorem c10_rate_guards (m : BenchmarkMetrics) :
    (m.total_requests = 0 → m.success_rate = 0 ∧ m.timeout_rate = 0) ∧
    (m.total_requests ≠ 0 →
      m.success_rate = ((m.success_count : ℚ) / (m.total_requests : ℚ)) * 100 ∧
      m.timeout_rate = ((m.timeout_count : ℚ) / (m.total_requests : ℚ)) * 100) := by
  constructor <;> intro h <;>
    simp [BenchmarkMetrics.success_rate, BenchmarkMetrics.timeout_rate, h]

/-- Witness for C10 at `total_requests = 0` and at a metrics value with
`total_requests = 2`, `success_count = 1`, `timeout_count = 1`. -/
theorem c10_rate_guards_witness :
    (({ } : BenchmarkMetrics).success_rate = 0 ∧
      ({ } : BenchmarkMetrics).timeout_rate = 0) ∧
    (({ total_requests := 2, success_count := 1, timeout_count := 1 } :
          BenchmarkMetrics).success_rate = ((1 : ℚ) / (2 : ℚ)) * 100 ∧
      ({ total_requests := 2, success_count := 1, timeout_count := 1 } :
          BenchmarkMetrics).timeout_rate = ((1 : ℚ) / (2 : ℚ)) * 100) := by
  constructor
  · exact (c10_rate_guards { }).1 rfl
  · have h := (c10_rate_guards
      { total_requests := 2, success_count := 1, timeout_count := 1 }).2 (by decide)
    exact_mod_cast h

/-- Claim C7: accuracy, precision and recall produced by `calculate` lie in
`[0, 100]` whenever their respective denominators are nonzero, and equal `0`
when the denominator is zero. -/
theorem c7_metric_bounds (s : MetricsCollector) :
    (s.true_positive + s.true_negative + s.false_positive + s.false_negative ≠ 0 →
      0 ≤ (MetricsCollector.calculate s).accuracy ∧
        (MetricsCollector.calculate s).accuracy ≤ 100) ∧
    (s.true_positive + s.true_negative + s.false_positive + s.false_negative = 0 →
      (MetricsCollector.calculate s).accuracy = 0) ∧
    (s.true_positive + s.false_positive ≠ 0 →
      0 ≤ (MetricsCollector.calculate s).precision_score ∧
        (MetricsCollector.calculate s).precision_score ≤ 100) ∧
    (s.true_positive + s.false_positive = 0 →
      (MetricsCollector.calculate s).precision_score = 0) ∧
    (s.true_positive + s.false_negative ≠ 0 →
      0 ≤ (MetricsCollector.calculate s).recall_score ∧
        (MetricsCollector.calculate s).recall_score ≤ 100) ∧
    (s.true_positive + s.false_negative = 0 →
      (MetricsCollector.calculate s).recall_score = 0) := by
  rw [MetricsCollector.calculate_accuracy, MetricsCollector.calculate_precision_score,
    MetricsCollector.calculate_recall_score]
  refine ⟨fun h => ?_, fun h => ?_, fun h => ?_, fun h => ?_, fun h => ?_, fun h => ?_⟩
  · rw [if_pos (Nat.pos_of_ne_zero h)]
    exact MetricsCollector.ratio_pct_bounds _ _ h (by omega)
  · rw [if_neg (by omega)]
  · rw [if_pos (Nat.pos_of_ne_zero h)]
    exact MetricsCollector.ratio_pct_bounds _ _ h (by omega)
  · rw [if_neg (by omega)]
  · rw [if_pos (Nat.pos_of_ne_zero h)]
    exact MetricsCollector.ratio_pct_bounds _ _ h (by omega)
  · rw [if_neg (by omega)]

/-- Witness for C7 at a collector with `TP = TN = FP = FN = 1` (all
denominators nonzero) and at the fresh collector (all denominators zero). -/
theorem c7_metric_bounds_witness :
    (0 ≤ (MetricsCollector.calculate
        { true_positive := 1, true_negative := 1, false_positive := 1,
          false_negative := 1 }).accuracy ∧
      (MetricsCollector.calculate
        { true_positive := 1, true_negative := 1, false_positive := 1,
          false_negative := 1 }).accuracy ≤ 100) ∧
    (MetricsCollector.calculate (freshCollector "p" "text")).accuracy = 0 ∧
    (MetricsCollector.calculate (freshCollector "p" "text")).precision_score = 0 ∧
    (MetricsCollector.calculate (freshCollector "p" "text")).recall_score = 0 := by
  refine ⟨(c7_metric_bounds _).1 (by decide), ?_, ?_, ?_⟩
  · exact (c7_metric_bounds (freshCollector "p" "text")).2.1 rfl
  · exact (c7_metric_bounds (freshCollector "p" "text")).2.2.2.1 rfl
  · exact (c7_metric_bounds (freshCollector "p" "text")).2.2.2.2.2 rfl

/-- Claim C6: `calculate` sets `f1_score` to `2·P·R/(P+R)` over the
percentage-scale precision and recall, and to `0` when `P + R = 0`. -/
theorem c6_f1_formula (s : MetricsCollector) :
    ((MetricsCollector.calculate s).precision_score +
        (MetricsCollector.calculate s).recall_score > 0 →
      (MetricsCollector.calculate s).f1_score =
        2 * (MetricsCollector.calculate s).precision_score *
            (MetricsCollector.calculate s).recall_score /
          ((MetricsCollector.calculate s).precision_score +
            (MetricsCollector.calculate s).recall_score)) ∧
    ((MetricsCollector.calculate s).precision_score +
        (MetricsCollector.calculate s).recall_score = 0 →
      (MetricsCollector.calculate s).f1_score = 0) := by
  have h := MetricsCollector.calculate_f1_score s
  constructor <;> intro hc
  · rw [h, if_pos hc]
  · rw [h, if_neg (by rw [hc]; exact lt_irrefl 0)]

/-- Witness for C6 at a collector with one true positive: precision and
recall are both 100, so F1 is 100 (percentage scale). -/
theorem c6_f1_formula_witness :
    (MetricsCollector.calculate
      ({ true_positive := 1 } : MetricsCollector)).f1_score = 100 := by
  have hp : (MetricsCollector.calculate ({ true_positive := 1 } : MetricsCollector)).precision_score +
      (MetricsCollector.calculate ({ true_positive := 1 } : MetricsCollector)).recall_score > 0 := by
    rw [MetricsCollector.calculate_precision_score, MetricsCollector.calculate_recall_score]
    norm_num
  have h := (c6_f1_formula ({ true_positive := 1 } : MetricsCollector)).1 hp
  rw [h]
  rw [MetricsCollector.calculate_precision_score, MetricsCollector.calculate_recall_score]
  norm_num

/-- Claim C5: for a nonempty latency sample list, the p50/p95/p99 fields of
`calculate` are the elements of the ascending-sorted sample at index
`min (n * P / 100) (n - 1)` — nearest-rank without interpolation. -/
theorem c5_percentile_rule (s : MetricsCollector) (h : s.response_times ≠ []) :
    ((MetricsCollector.calculate s).p50_response_time =
      (s.response_times.insertionSort (fun a b => a ≤ b)).getD
        (min (s.response_times.length * 50 / 100) (s.response_times.length - 1)) 0) ∧
    ((MetricsCollector.calculate s).p95_response_time =
      (s.response_times.insertionSort (fun a b => a ≤ b)).getD
        (min (s.response_times.length * 95 / 100) (s.response_times.length - 1)) 0) ∧
    ((MetricsCollector.calculate s).p99_response_time =
      (s.response_times.insertionSort (fun a b => a ≤ b)).getD
        (min (s.response_times.length * 99 / 100) (s.response_times.length - 1)) 0) := by
  have hlen : (s.response_times.insertionSort (fun a b => a ≤ b)).length =
      s.response_times.length := List.length_insertionSort _ _
  have hne : ¬((s.response_times.insertionSort (fun a b => a ≤ b)).isEmpty = true) := by
    rw [List.isEmpty_iff]
    intro hc
    have h0 := congrArg List.length hc
    rw [hlen] at h0
    exact h (List.length_eq_zero.mp (by simpa using h0))
  refine ⟨?_, ?_, ?_⟩
  · rw [MetricsCollector.calculate_p50, if_pos h]
    simp only [MetricsCollector.percentile]
    rw [if_neg hne, hlen]
  · rw [MetricsCollector.calculate_p95, if_pos h]
    simp only [MetricsCollector.percentile]
    rw [if_neg hne, hlen]
  · rw [MetricsCollector.calculate_p99, if_pos h]
    simp only [MetricsCollector.percentile]
    rw [if_neg hne, hlen]

/-- Witness for C5: with the ten samples 10,…,100 the p50 index is
`min (10·50/100) 9 = 5`, so p50 is the sixth element 60 (not the textbook
median 55); p95 and p99 clamp to index 9, giving 100. -/
theorem c5_percentile_rule_witness :
    (MetricsCollector.calculate
      ({ response_times := [10, 20, 30, 40, 50, 60, 70, 80, 90, 100] } :
        MetricsCollector)).p50_response_time = 60 ∧
    (MetricsCollector.calculate
      ({ response_times := [10, 20, 30, 40, 50, 60, 70, 80, 90, 100] } :
        MetricsCollector)).p95_response_time = 100 ∧
    (MetricsCollector.calculate
      ({ response_times := [10, 20, 30, 40, 50, 60, 70, 80, 90, 100] } :
        MetricsCollector)).p99_response_time = 100 := by
  have h := c5_percentile_rule
    ({ response_times := [10, 20, 30, 40, 50, 60, 70, 80, 90, 100] } :
      MetricsCollector) (by decide)
  refine ⟨?_, ?_, ?_⟩
  · rw [h.1]; decide
  · rw [h.2.1]; decide
  · rw [h.2.2]; decide

/-- Claim C3: `_check_mismatch` returns a record iff the call succeeded and
the binary expected-risk flag (`expected != "正常"`) differs from the binary
actual-risk flag (`risk_level != PASS`); failed calls and agreeing flags
never yield a mismatch, regardless of label text. -/
theorem c3_mismatch_criterion (tc : TestCase) (r : ModerationResult)
    (ct : ContentType) :
    (BenchmarkRunner.check_mismatch tc r ct).isSome ↔
      (r.success = true ∧
        ¬((tc.expected_risk ≠ "正常") ↔ (r.risk_level ≠ RiskLevel.PASS))) := by
  unfold BenchmarkRunner.check_mismatch
  by_cases hs : r.success
  · by_cases hiff : (tc.expected_risk ≠ "正常") ↔ (r.risk_level ≠ RiskLevel.PASS)
    · simp [hs, hiff]
    · simp [hs, hiff]
  · simp [hs]

/-- Counterexample for C1 as stated: a single *failed* recorded outcome also
increments a confusion-matrix cell (the update in `record` is outside the
`if result.success` branch), so the cells sum to 1 while `success_count`
is 0. -/
theorem c1_counterexample :
    (MetricsCollector.record (freshCollector "p" "text")
        ({ success := false, error := some "boom" } : ModerationResult)
        "正常" "").true_positive +
      (MetricsCollector.record (freshCollector "p" "text")
        ({ success := false, error := some "boom" } : ModerationResult)
        "正常" "").true_negative +
      (MetricsCollector.record (freshCollector "p" "text")
        ({ success := false, error := some "boom" } : ModerationResult)
        "正常" "").false_positive +
      (MetricsCollector.record (freshCollector "p" "text")
        ({ success := false, error := some "boom" } : ModerationResult)
        "正常" "").false_negative = 1 ∧
    (MetricsCollector.record (freshCollector "p" "text")
        ({ success := false, error := some "boom" } : ModerationResult)
        "正常" "").success_count = 0 := by
  decide

/-- Claim C1 as amended: after any sequence of `record` calls on a fresh
collector, the confusion-matrix cells sum to `success_count + fail_count`
(the total number of recorded outcomes): *every* recorded outcome,
successful or failed, contributes exactly one confusion-matrix increment. -/
theorem c1_confusion_sum (p ctv : String) (l : List RecordInput) :
    (recordAll (freshCollector p ctv) l).true_positive +
      (recordAll (freshCollector p ctv) l).true_negative +
      (recordAll (freshCollector p ctv) l).false_positive +
      (recordAll (freshCollector p ctv) l).false_negative =
    (recordAll (freshCollector p ctv) l).success_count +
      (recordAll (freshCollector p ctv) l).fail_count := by
  rw [MetricsCollector.recordAll_true_positive, MetricsCollector.recordAll_true_negative,
    MetricsCollector.recordAll_false_positive, MetricsCollector.recordAll_false_negative,
    MetricsCollector.recordAll_success_count, MetricsCollector.recordAll_fail_count]
  simp only [freshCollector, Nat.zero_add]
  induction l with
  | nil => rfl
  | cons x xs ih =>
    simp only [List.countP_cons]
    by_cases he : x.2.1 = "正常" <;> by_cases ha : x.1.risk_label = "正常" <;>
      by_cases hs : x.1.success = true <;>
      simp [he, ha, hs] at ih ⊢ <;> omega

/-- Counterexample for C2 as stated: a successful outcome with
`risk_level = REJECT` but `risk_label = "正常"` and expected `"正常"`.  The
claim's rule `(expected != "正常", risk_level != PASS)` would increment
`false_positive`, but `record` compares `risk_label`, so it increments
`true_negative` instead. -/
theorem c2_counterexample :
    ({ success := true, risk_level := .REJECT, risk_label := "正常" } :
        ModerationResult).success = true ∧
    ({ success := true, risk_level := .REJECT, risk_label := "正常" } :
        ModerationResult).risk_level ≠ RiskLevel.PASS ∧
    (MetricsCollector.record (freshCollector "p" "text")
        ({ success := true, risk_level := .REJECT, risk_label := "正常" } :
          ModerationResult) "正常" "").false_positive = 0 ∧
    (MetricsCollector.record (freshCollector "p" "text")
        ({ success := true, risk_level := .REJECT, risk_label := "正常" } :
          ModerationResult) "正常" "").true_negative = 1 := by
  decide

/-- Claim C2 as amended: for every successful outcome, the confusion-matrix
cell incremented by `record` is determined by the pair
(`expected != "正常"`, `risk_label != "正常"`) — the actual-risk flag is the
primary risk *label* compared with the no-risk label, not the risk level. -/
theorem c2_confusion_cell (s : MetricsCollector) (r : ModerationResult)
    (e c : String) (h : r.success = true) :
    (MetricsCollector.record s r e c).true_positive =
      s.true_positive + (if e ≠ "正常" ∧ r.risk_label ≠ "正常" then 1 else 0) ∧
    (MetricsCollector.record s r e c).true_negative =
      s.true_negative + (if e = "正常" ∧ r.risk_label = "正常" then 1 else 0) ∧
    (MetricsCollector.record s r e c).false_positive =
      s.false_positive + (if e = "正常" ∧ r.risk_label ≠ "正常" then 1 else 0) ∧
    (MetricsCollector.record s r e c).false_negative =
      s.false_negative + (if e ≠ "正常" ∧ r.risk_label = "正常" then 1 else 0) :=
  ⟨MetricsCollector.record_true_positive s r e c,
    MetricsCollector.record_true_negative s r e c,
    MetricsCollector.record_false_positive s r e c,
    MetricsCollector.record_false_negative s r e c⟩

/-- Witness for C2 (amended) at a successful risky outcome with a risky
expected label: exactly the true-positive cell is incremented. -/
theorem c2_confusion_cell_witness :
    (MetricsCollector.record (freshCollector "p" "text")
        ({ success := true, risk_level := .REJECT, risk_label := "涉政" } :
          ModerationResult) "涉政" "").true_positive = 1 ∧
    (MetricsCollector.record (freshCollector "p" "text")
        ({ success := true, risk_level := .REJECT, risk_label := "涉政" } :
          ModerationResult) "涉政" "").true_negative = 0 ∧
    (MetricsCollector.record (freshCollector "p" "text")
        ({ success := true, risk_level := .REJECT, risk_label := "涉政" } :
          ModerationResult) "涉政" "").false_positive = 0 ∧
    (MetricsCollector.record (freshCollector "p" "text")
        ({ success := true, risk_level := .REJECT, risk_label := "涉政" } :
          ModerationResult) "涉政" "").false_negative = 0 := by
  obtain ⟨h1, h2, h3, h4⟩ := c2_confusion_cell (freshCollector "p" "text")
    ({ success := true, risk_level := .REJECT, risk_label := "涉政" } :
      ModerationResult) "涉政" "" rfl
  refine ⟨?_, ?_, ?_, ?_⟩
  · rw [h1]; decide
  · rw [h2]; decide
  · rw [h3]; decide
  · rw [h4]; decide

/-- Claim C8: a failed recorded outcome increments exactly the error-type
bucket chosen by `_categorize_error`; the bucket is one of the six listed
ones, is `Unknown` exactly when the error text is absent or empty, and is
otherwise chosen by case-insensitive substring matching with precedence
Timeout, Network Error, HTTP Error, API Error, Other. -/
theorem c8_error_buckets (s : MetricsCollector) (r : ModerationResult)
    (e c : String) (h : r.success = false) :
    ((MetricsCollector.record s r e c).error_types
        (MetricsCollector.categorize_error r.error) =
      s.error_types (MetricsCollector.categorize_error r.error) + 1) ∧
    (∀ b, b ≠ MetricsCollector.categorize_error r.error →
      (MetricsCollector.record s r e c).error_types b = s.error_types b) ∧
    MetricsCollector.categorize_error r.error ∈
      ["Timeout", "Network Error", "HTTP Error", "API Error", "Other", "Unknown"] ∧
    ((r.error = none ∨ r.error = some "") →
      MetricsCollector.categorize_error r.error = "Unknown") ∧
    (∀ msg, r.error = some msg → msg ≠ "" →
      MetricsCollector.categorize_error r.error =
        if strContains (pyLower msg) "timeout" then "Timeout"
        else if strContains (pyLower msg) "network" ||
            strContains (pyLower msg) "connection" then "Network Error"
        else if strContains (pyLower msg) "http" then "HTTP Error"
        else if strContains (pyLower msg) "api" then "API Error"
        else "Other") := by
  refine ⟨?_, ?_, ?_, ?_, ?_⟩
  · rw [MetricsCollector.record_error_types]
    simp [h]
  · intro b hb
    rw [MetricsCollector.record_error_types]
    simp [hb]
  · unfold MetricsCollector.categorize_error
    rcases r.error with _ | msg
    · simp
    · by_cases hm : msg = ""
      · simp [hm]
      · simp only [hm, if_false]
        split_ifs <;> simp
  · rintro (he | he) <;> simp [MetricsCollector.categorize_error, he]
  · intro msg hmsg hne
    rw [hmsg]
    simp [MetricsCollector.categorize_error, hne]

/-- Witness for C8 at a failed outcome whose error text contains both
"network" and "timeout": precedence picks the Timeout bucket, whose count
becomes 1, leaving the Network Error bucket at 0. -/
theorem c8_error_buckets_witness :
    (MetricsCollector.record (freshCollector "p" "text")
        ({ success := false, error := some "Network Timeout" } : ModerationResult)
        "正常" "").error_types "Timeout" = 1 ∧
    (MetricsCollector.record (freshCollector "p" "text")
        ({ success := false, error := some "Network Timeout" } : ModerationResult)
        "正常" "").error_types "Network Error" = 0 := by
  obtain ⟨h1, h2, _, _, _⟩ := c8_error_buckets (freshCollector "p" "text")
    ({ success := false, error := some "Network Timeout" } : ModerationResult)
    "正常" "" rfl
  have hcat : MetricsCollector.categorize_error
      (({ success := false, error := some "Network Timeout" } :
        ModerationResult).error) = "Timeout" := by decide
  constructor
  · rw [hcat] at h1
    rw [h1]
    rfl
  · have := h2 "Network Error" (by rw [hcat]; decide)
    rw [this]
    rfl

namespace BenchmarkRunner

/-- When the adapter raises on every call, draining the futures records one
converted failed outcome per case and produces no mismatch. -/
theorem foldl_runStep_raise (msg : TestCase → String) (pname : String)
    (ct : ContentType) (order : List TestCase) (c : MetricsCollector)
    (ms : List MismatchRecord) :
    order.foldl (runStep (fun tc => Except.error (msg tc)) pname ct) (c, ms) =
      (recordAll c (order.map (fun tc =>
          (errorResult (msg tc) pname ct, tc.expected_risk, tc.category))),
        ms) := by
  induction order generalizing c with
  | nil => rfl
  | cons tc tcs ih =>
    simp only [List.foldl_cons, List.map_cons, MetricsCollector.recordAll_cons]
    rw [show runStep (fun tc => Except.error (msg tc)) pname ct (c, ms) tc =
        (MetricsCollector.record c (errorResult (msg tc) pname ct)
          tc.expected_risk tc.category, ms) from rfl]
    exact ih _

/-- Each drained future appends exactly one entry to the collector's results:
the returned outcome's entry when the adapter returned, or the converted
failed outcome's entry when it raised — the batch is never truncated. -/
theorem foldl_runStep_results (adapter : AdapterCall) (pname : String)
    (ct : ContentType) (order : List TestCase) (c : MetricsCollector)
    (ms : List MismatchRecord) :
    (order.foldl (runStep adapter pname ct) (c, ms)).1.results =
      c.results ++ order.map (fun tc =>
        match adapter tc with
        | .ok r => MetricsCollector.mkEntry r tc.expected_risk
        | .error e =>
          MetricsCollector.mkEntry (errorResult e pname ct) tc.expected_risk) := by
  induction order generalizing c ms with
  | nil => simp
  | cons tc tcs ih =>
    simp only [List.foldl_cons, List.map_cons]
    cases had : adapter tc with
    | ok r =>
      simp only [runStep, had]
      rw [ih]
      rw [MetricsCollector.record_results]
      simp
    | error e =>
      simp only [runStep, had]
      rw [ih]
      rw [MetricsCollector.record_results]
      simp

end BenchmarkRunner

/-- Claim C4: when the adapter raises on a call the driver converts the
exception to a failed outcome (`success = false`, `error` = the exception
text), records it, and continues; with an adapter that raises on every call
(in any completion order) the run yields `success_count = 0`,
`fail_count = len(cases)`, no mismatches, and `timeout_count` equal to the
number of raised messages containing "timeout" (case-insensitively) — in
particular 0 when no message contains it. -/
theorem c4_adapter_exception_handling (msg : TestCase → String) (pname : String)
    (ct : ContentType) (cs ord : List TestCase) (t0 t1 : ℚ)
    (hperm : ord.Perm cs) :
    (∀ adapter : BenchmarkRunner.AdapterCall,
      (BenchmarkRunner.runBenchmarkState adapter pname ct ord t0 t1).1.results =
        ord.map (fun tc =>
          match adapter tc with
          | .ok r => MetricsCollector.mkEntry r tc.expected_risk
          | .error e =>
            MetricsCollector.mkEntry (BenchmarkRunner.errorResult e pname ct)
              tc.expected_risk)) ∧
    ((BenchmarkRunner.runBenchmarkState (fun tc => Except.error (msg tc))
        pname ct ord t0 t1).1.results =
      ord.map (fun tc =>
        MetricsCollector.mkEntry (BenchmarkRunner.errorResult (msg tc) pname ct)
          tc.expected_risk)) ∧
    ((BenchmarkRunner.runBenchmarkState (fun tc => Except.error (msg tc))
        pname ct ord t0 t1).2 = []) ∧
    ((BenchmarkRunner.run_benchmark (fun tc => Except.error (msg tc))
        pname ct ord t0 t1).1.success_count = 0) ∧
    ((BenchmarkRunner.run_benchmark (fun tc => Except.error (msg tc))
        pname ct ord t0 t1).1.fail_count = cs.length) ∧
    ((BenchmarkRunner.run_benchmark (fun tc => Except.error (msg tc))
        pname ct ord t0 t1).1.total_requests = cs.length) ∧
    ((BenchmarkRunner.run_benchmark (fun tc => Except.error (msg tc))
        pname ct ord t0 t1).1.timeout_count =
      cs.countP (fun tc => MetricsCollector.errorHasTimeout (some (msg tc)))) ∧
    ((∀ tc ∈ cs, ¬MetricsCollector.errorHasTimeout (some (msg tc))) →
      (BenchmarkRunner.run_benchmark (fun tc => Except.error (msg tc))
        pname ct ord t0 t1).1.timeout_count = 0) := by
  have hstate := BenchmarkRunner.foldl_runStep_raise msg pname ct ord
    ({ provider := pname, content_type := ct.value, start_time := some t0 } :
      MetricsCollector) []
  have hrun : BenchmarkRunner.runBenchmarkState (fun tc => Except.error (msg tc))
      pname ct ord t0 t1 =
      ({ recordAll
          ({ provider := pname, content_type := ct.value, start_time := some t0 } :
            MetricsCollector)
          (ord.map (fun tc =>
            (BenchmarkRunner.errorResult (msg tc) pname ct, tc.expected_risk,
              tc.category))) with end_time := some t1 }, []) := by
    show ({ (ord.foldl (BenchmarkRunner.runStep (fun tc => Except.error (msg tc))
              pname ct)
            (({ provider := pname, content_type := ct.value, start_time := some t0 } :
              MetricsCollector), [])).1 with end_time := some t1 },
          (ord.foldl (BenchmarkRunner.runStep (fun tc => Except.error (msg tc))
              pname ct)
            (({ provider := pname, content_type := ct.value, start_time := some t0 } :
              MetricsCollector), [])).2) = _
    rw [hstate]
  have hm : (BenchmarkRunner.run_benchmark (fun tc => Except.error (msg tc))
      pname ct ord t0 t1).1 =
      MetricsCollector.calculate
        ({ recordAll
            ({ provider := pname, content_type := ct.value, start_time := some t0 } :
              MetricsCollector)
            (ord.map (fun tc =>
              (BenchmarkRunner.errorResult (msg tc) pname ct, tc.expected_risk,
                tc.category))) with end_time := some t1 }) := by
    unfold BenchmarkRunner.run_benchmark
    rw [hrun]
  have hscount : (BenchmarkRunner.run_benchmark (fun tc => Except.error (msg tc))
      pname ct ord t0 t1).1.success_count = 0 := by
    rw [hm, MetricsCollector.calculate_success_count]
    show (recordAll _ _).success_count = 0
    rw [MetricsCollector.recordAll_success_count]
    simp [List.countP_map, Function.comp, BenchmarkRunner.errorResult]
  have hfcount : (BenchmarkRunner.run_benchmark (fun tc => Except.error (msg tc))
      pname ct ord t0 t1).1.fail_count = cs.length := by
    rw [hm, MetricsCollector.calculate_fail_count]
    show (recordAll _ _).fail_count = cs.length
    rw [MetricsCollector.recordAll_fail_count]
    simp only [List.countP_map]
    rw [show ((fun x : RecordInput => !x.1.success) ∘ (fun tc =>
          (BenchmarkRunner.errorResult (msg tc) pname ct, tc.expected_risk,
            tc.category))) = (fun _ : TestCase => true) from rfl]
    rw [List.countP_eq_length.mpr (fun a _ => rfl)]
    simpa using hperm.length_eq
  have htreq : (BenchmarkRunner.run_benchmark (fun tc => Except.error (msg tc))
      pname ct ord t0 t1).1.total_requests = cs.length := by
    rw [hm, MetricsCollector.calculate_total_requests]
    show (recordAll _ _).results.length = cs.length
    rw [MetricsCollector.recordAll_results]
    simp
    exact hperm.length_eq
  have htcount : (BenchmarkRunner.run_benchmark (fun tc => Except.error (msg tc))
      pname ct ord t0 t1).1.timeout_count =
      cs.countP (fun tc => MetricsCollector.errorHasTimeout (some (msg tc))) := by
    rw [hm, MetricsCollector.calculate_timeout_count]
    show (recordAll _ _).timeout_count = _
    rw [MetricsCollector.recordAll_timeout_count]
    simp only [List.countP_map]
    rw [show ((fun x : RecordInput => !x.1.success &&
          MetricsCollector.errorHasTimeout x.1.error) ∘ (fun tc =>
            (BenchmarkRunner.errorResult (msg tc) pname ct, tc.expected_risk,
              tc.category))) =
        (fun tc => MetricsCollector.errorHasTimeout (some (msg tc))) from rfl]
    simp [hperm.countP_eq]
  refine ⟨?_, ?_, ?_, hscount, hfcount, htreq, htcount, ?_⟩
  · intro adapter
    show (List.foldl (BenchmarkRunner.runStep adapter pname ct)
        (({ provider := pname, content_type := ct.value, start_time := some t0 } :
          MetricsCollector), []) ord).1.results = _
    rw [BenchmarkRunner.foldl_runStep_results]
    rfl
  · rw [hrun]
    show (recordAll _ _).results = _
    rw [MetricsCollector.recordAll_results]
    simp [List.map_map]
  · rw [hrun]
  · intro h
    rw [htcount]
    exact List.countP_eq_zero.mpr fun tc htc => by simpa using h tc htc


/-- Witness for C4: two cases, an adapter raising "boom" on every call,
completion order equal to submission order: 0 successes, 2 failures,
0 timeouts. -/
theorem c4_adapter_exception_handling_witness :
    ((BenchmarkRunner.run_benchmark (fun _ => Except.error "boom") "p"
        ContentType.TEXT
        [{ id := "t1", expected_risk := "正常" },
          { id := "t2", expected_risk := "涉政" }] 0 1).1.success_count = 0) ∧
    ((BenchmarkRunner.run_benchmark (fun _ => Except.error "boom") "p"
        ContentType.TEXT
        [{ id := "t1", expected_risk := "正常" },
          { id := "t2", expected_risk := "涉政" }] 0 1).1.fail_count = 2) ∧
    ((BenchmarkRunner.run_benchmark (fun _ => Except.error "boom") "p"
        ContentType.TEXT
        [{ id := "t1", expected_risk := "正常" },
          { id := "t2", expected_risk := "涉政" }] 0 1).1.timeout_count = 0) := by
  have h := c4_adapter_exception_handling (fun _ => "boom") "p" ContentType.TEXT
    [{ id := "t1", expected_risk := "正常" }, { id := "t2", expected_risk := "涉政" }]
    [{ id := "t1", expected_risk := "正常" }, { id := "t2", expected_risk := "涉政" }]
    0 1 (List.Perm.refl _)
  exact ⟨h.2.2.2.1, h.2.2.2.2.1, h.2.2.2.2.2.2.2 (fun tc _ => by
    show ¬MetricsCollector.errorHasTimeout (some "boom") = true
    decide)⟩

namespace MetricsCollector

/-- The per-category statistics depend only on the multiset of entries in the
bucket. -/
theorem categoryStatOf_perm (l₁ l₂ : List RecordEntry) (h : l₁.Perm l₂) :
    categoryStatOf l₁ = categoryStatOf l₂ := by
  unfold categoryStatOf
  have hl := h.length_eq
  have h1 := h.countP_eq (fun r => r.success)
  have h2 := h.countP_eq (fun r => r.success && is_match r.expected r.actual)
  by_cases h0 : l₂ = []
  · subst h0
    have h0' : l₁ = [] := List.length_eq_zero.mp (by simpa using hl)
    subst h0'
    rfl
  · have h0' : l₁ ≠ [] := by
      intro hc
      subst hc
      exact h0 (List.Perm.nil_eq h).symm
    simp [h0, h0', hl, h1, h2]

/-- The output of `calculate` is determined by the collector's counters, its error-type
function, the *multisets* of its latency samples and per-category buckets,
and its timing fields. -/
theorem calculate_congr (s₁ s₂ : MetricsCollector)
    (hpv : s₁.provider = s₂.provider)
    (hct : s₁.content_type = s₂.content_type)
    (hres : s₁.results.length = s₂.results.length)
    (hsc : s₁.success_count = s₂.success_count)
    (hfc : s₁.fail_count = s₂.fail_count)
    (htc : s₁.timeout_count = s₂.timeout_count)
    (htp : s₁.true_positive = s₂.true_positive)
    (htn : s₁.true_negative = s₂.true_negative)
    (hfp : s₁.false_positive = s₂.false_positive)
    (hfn : s₁.false_negative = s₂.false_negative)
    (het : s₁.error_types = s₂.error_types)
    (hrt : s₁.response_times.Perm s₂.response_times)
    (hcr : ∀ k, (s₁.category_results k).Perm (s₂.category_results k))
    (hst : s₁.start_time = s₂.start_time)
    (hen : s₁.end_time = s₂.end_time) :
    calculate s₁ = calculate s₂ := by
  have hsorted : s₁.response_times.insertionSort (fun a b => a ≤ b) =
      s₂.response_times.insertionSort (fun a b => a ≤ b) :=
    List.eq_of_perm_of_sorted
      ((List.perm_insertionSort _ _).trans
        (hrt.trans (List.perm_insertionSort _ _).symm))
      (List.sorted_insertionSort _ _) (List.sorted_insertionSort _ _)
  have hcat : (fun c => categoryStatOf (s₁.category_results c)) =
      (fun c => categoryStatOf (s₂.category_results c)) :=
    funext fun c => categoryStatOf_perm _ _ (hcr c)
  unfold calculate
  by_cases h0 : s₂.response_times = []
  · have h0' : s₁.response_times = [] := by
      rw [← List.length_eq_zero] at h0 ⊢
      rw [hrt.length_eq, h0]
    rw [hpv, hct, hres, hsc, hfc, htc, htp, htn, hfp, hfn, het, hst, hen, hcat,
      h0, h0']
  · have h0' : s₁.response_times ≠ [] := by
      intro hc
      apply h0
      rw [← List.length_eq_zero] at hc ⊢
      rw [← hrt.length_eq, hc]
    rw [hpv, hct, hres, hsc, hfc, htc, htp, htn, hfp, hfn, het, hst, hen, hcat,
      hsorted]
    simp [h0, h0']

end MetricsCollector

/-- Claim C9: feeding any two permutations of the same multiset of
(outcome, expected label, category) triples to a fresh collector yields
literally identical aggregated metrics from `calculate` — confusion matrix,
accuracy, precision, recall, F1, counts, error histogram, per-category
metrics, and latency percentiles (the sorted sample list and everything
derived from it). -/
theorem c9_order_independence (p ctv : String) (l₁ l₂ : List RecordInput)
    (h : l₁.Perm l₂) :
    MetricsCollector.calculate (recordAll (freshCollector p ctv) l₁) =
      MetricsCollector.calculate (recordAll (freshCollector p ctv) l₂) := by
  apply MetricsCollector.calculate_congr
  · rw [MetricsCollector.recordAll_provider, MetricsCollector.recordAll_provider]
  · rw [MetricsCollector.recordAll_content_type,
      MetricsCollector.recordAll_content_type]
  · rw [MetricsCollector.recordAll_results, MetricsCollector.recordAll_results]
    simp [h.length_eq]
  · rw [MetricsCollector.recordAll_success_count,
      MetricsCollector.recordAll_success_count, h.countP_eq]
  · rw [MetricsCollector.recordAll_fail_count,
      MetricsCollector.recordAll_fail_count, h.countP_eq]
  · rw [MetricsCollector.recordAll_timeout_count,
      MetricsCollector.recordAll_timeout_count, h.countP_eq]
  · rw [MetricsCollector.recordAll_true_positive,
      MetricsCollector.recordAll_true_positive, h.countP_eq]
  · rw [MetricsCollector.recordAll_true_negative,
      MetricsCollector.recordAll_true_negative, h.countP_eq]
  · rw [MetricsCollector.recordAll_false_positive,
      MetricsCollector.recordAll_false_positive, h.countP_eq]
  · rw [MetricsCollector.recordAll_false_negative,
      MetricsCollector.recordAll_false_negative, h.countP_eq]
  · funext k
    rw [MetricsCollector.recordAll_error_types,
      MetricsCollector.recordAll_error_types, h.countP_eq]
  · rw [MetricsCollector.recordAll_response_times,
      MetricsCollector.recordAll_response_times]
    simpa using h.filterMap _
  · intro k
    rw [MetricsCollector.recordAll_category_results,
      MetricsCollector.recordAll_category_results]
    simpa using h.filterMap _
  · rw [MetricsCollector.recordAll_start_time,
      MetricsCollector.recordAll_start_time]
  · rw [MetricsCollector.recordAll_end_time,
      MetricsCollector.recordAll_end_time]

/-- Witness for C9: one successful and one failed outcome fed in the two
possible orders give identical calculated metrics. -/
theorem c9_order_independence_witness :
    MetricsCollector.calculate (recordAll (freshCollector "p" "text")
      [(({ success := true, response_time := 5, risk_label := "正常" } :
          ModerationResult), "正常", "catA"),
        (({ success := false, error := some "HTTP 500" } : ModerationResult),
          "涉政", "catB")]) =
    MetricsCollector.calculate (recordAll (freshCollector "p" "text")
      [(({ success := false, error := some "HTTP 500" } : ModerationResult),
          "涉政", "catB"),
        (({ success := true, response_time := 5, risk_label := "正常" } :
          ModerationResult), "正常", "catA")]) :=
  c9_order_independence "p" "text" _ _ (List.Perm.swap _ _ _)
